import Mathlib

/-
Verification of webpack-web-app-manifest-plugin (src/index.ts) against its
natural-language specification.

JavaScript strings are modelled as lists of characters, JavaScript runtime
values as the inductive `JSValue`, JavaScript objects as ordered association
lists (insertion order is observable through `JSON.stringify`), and code that
throws as `Except String` (the payload plays the role of the thrown error).
-/

namespace WebAppManifest

/-- JavaScript strings, modelled as lists of characters. -/
abbrev Str := List Char

/-- Embeds a Lean string literal as a `Str`. -/
def jstr (s : String) : Str := s.data

/-- JavaScript runtime values, as far as the plugin inspects them. -/
inductive JSValue where
  | undefined
  | null
  | str (s : Str)
  | boolean (b : Bool)
  | num (n : Int)
  | arr (elems : List JSValue)
  | obj (fields : List (Str × JSValue))

/-- JavaScript objects: ordered key/value lists. -/
abbrev JSObj := List (Str × JSValue)

/-- Property read `o[k]`: the first binding of `k`, or `undefined` when the key
is absent (JavaScript property access on a missing key yields `undefined`,
which is also what object destructuring of a missing key produces). -/
def jsGet (o : JSObj) (k : Str) : JSValue :=
  match o.find? (fun p => p.1 == k) with
  | some p => p.2
  | none => JSValue.undefined

/-- Node's `assert(value)`: ok on a truthy argument, throws `AssertionError`
on a falsy one. -/
def jsAssert (b : Bool) : Except String Unit :=
  if b then Except.ok () else Except.error "AssertionError"

/-- `assert(typeof x === 'undefined' || typeof x === 'string')` (src line 43). -/
def assertNullableString (x : JSValue) : Except String Unit :=
  jsAssert (match x with
    | JSValue.undefined => true
    | JSValue.str _ => true
    | _ => false)

/-- `assert(typeof x === 'undefined' || typeof x === 'boolean')` (src line 46). -/
def assertNullableBoolean (x : JSValue) : Except String Unit :=
  jsAssert (match x with
    | JSValue.undefined => true
    | JSValue.boolean _ => true
    | _ => false)

/-- The `DISPLAY_MODES` set (src lines 65-70); membership is all the code
uses, so a list of the four strings models it. -/
def DISPLAY_MODES : List Str :=
  [jstr "fullscreen", jstr "standalone", jstr "minimal-ui", jstr "browser"]

/-- `assert(typeof x === 'undefined' || DISPLAY_MODES.has(x))` (src line 49);
`Set.has` uses SameValueZero equality, so only the four member strings pass. -/
def assertNullableDisplayMode (x : JSValue) : Except String Unit :=
  jsAssert (match x with
    | JSValue.undefined => true
    | JSValue.str s => DISPLAY_MODES.contains s
    | _ => false)

/-- `assert(x != null && typeof x === 'object' && typeof x.src === 'string')`
(src lines 52-57).  `typeof` is `'object'` for plain objects, arrays and
`null`; `null` is excluded by `x != null`, and an array has no `src`
property, so only objects with a string `src` pass. -/
def assertImageResource (x : JSValue) : Except String Unit :=
  jsAssert (match x with
    | JSValue.obj fields =>
        (match jsGet fields (jstr "src") with
          | JSValue.str _ => true
          | _ => false)
    | _ => false)

/-- `assert(x != null && typeof x === 'object' && typeof x.platform === 'string')`
(src lines 58-63). -/
def assertExternalApplicationResource (x : JSValue) : Except String Unit :=
  jsAssert (match x with
    | JSValue.obj fields =>
        (match jsGet fields (jstr "platform") with
          | JSValue.str _ => true
          | _ => false)
    | _ => false)

/-- `Array.prototype.forEach` with a possibly-throwing callback: runs the
callback on every element in order, propagating the first throw. -/
def forEachAssert (f : JSValue → Except String Unit) : List JSValue → Except String Unit
  | [] => Except.ok ()
  | x :: xs =>
    match f x with
    | Except.error e => Except.error e
    | Except.ok _ => forEachAssert f xs

/-- Models src lines 104-106:
`assert(typeof icons === 'undefined' || (Array.isArray(icons) && icons.forEach(assertImageResource)))`.
`forEach` returns `undefined`, so when `icons` is an array whose elements all
pass `assertImageResource`, the conjunction evaluates to `undefined` (falsy)
and the outer `assert` still throws. -/
def assertIconsMember (icons : JSValue) : Except String Unit :=
  match icons with
  | JSValue.undefined => Except.ok ()
  | JSValue.arr elems =>
    match forEachAssert assertImageResource elems with
    | Except.error e => Except.error e
    | Except.ok _ => Except.error "AssertionError"
  | _ => Except.error "AssertionError"

/-- Models src lines 107-111, the analogous assertion for
`related_applications` (with `assertExternalApplicationResource`). -/
def assertRelatedApplicationsMember (ra : JSValue) : Except String Unit :=
  match ra with
  | JSValue.undefined => Except.ok ()
  | JSValue.arr elems =>
    match forEachAssert assertExternalApplicationResource elems with
    | Except.error e => Except.error e
    | Except.ok _ => Except.error "AssertionError"
  | _ => Except.error "AssertionError"

/-- `validateManifestContent` (src lines 78-138).  The keys are destructured
(absent keys become `undefined`), each assertion of the source runs in source
order, and the literal with the ten known keys is returned.  The source's
final cleanup loop (`for (const prop in validateManifestContent)`, lines
129-135) iterates over the enumerable properties of the *function* object —
of which there are none — so it deletes nothing and the literal is returned
exactly as built. -/
def validateManifestContent (manifestContent : JSObj) : Except String JSObj :=
  let background_color := jsGet manifestContent (jstr "background_color")
  let description := jsGet manifestContent (jstr "description")
  let display := jsGet manifestContent (jstr "display")
  let icons := jsGet manifestContent (jstr "icons")
  let lang := jsGet manifestContent (jstr "lang")
  let name := jsGet manifestContent (jstr "name")
  let prefer_related_applications := jsGet manifestContent (jstr "prefer_related_applications")
  let related_applications := jsGet manifestContent (jstr "related_applications")
  let short_name := jsGet manifestContent (jstr "short_name")
  let start_url := jsGet manifestContent (jstr "start_url")
  let theme_color := jsGet manifestContent (jstr "theme_color")
  match assertNullableString background_color with
  | Except.error e => Except.error e
  | Except.ok _ =>
  match assertNullableString description with
  | Except.error e => Except.error e
  | Except.ok _ =>
  match assertNullableString display with
  | Except.error e => Except.error e
  | Except.ok _ =>
  match assertNullableString lang with
  | Except.error e => Except.error e
  | Except.ok _ =>
  match assertNullableString name with
  | Except.error e => Except.error e
  | Except.ok _ =>
  match assertNullableBoolean prefer_related_applications with
  | Except.error e => Except.error e
  | Except.ok _ =>
  match assertNullableString related_applications with
  | Except.error e => Except.error e
  | Except.ok _ =>
  match assertNullableString short_name with
  | Except.error e => Except.error e
  | Except.ok _ =>
  match assertNullableString start_url with
  | Except.error e => Except.error e
  | Except.ok _ =>
  match assertNullableString theme_color with
  | Except.error e => Except.error e
  | Except.ok _ =>
  match assertIconsMember icons with
  | Except.error e => Except.error e
  | Except.ok _ =>
  match assertRelatedApplicationsMember related_applications with
  | Except.error e => Except.error e
  | Except.ok _ =>
  match assertNullableDisplayMode display with
  | Except.error e => Except.error e
  | Except.ok _ =>
    Except.ok
      [ (jstr "name", name),
        (jstr "short_name", short_name),
        (jstr "start_url", start_url),
        (jstr "display", display),
        (jstr "background_color", background_color),
        (jstr "theme_color", theme_color),
        (jstr "description", description),
        (jstr "icons", icons),
        (jstr "prefer_related_applications", prefer_related_applications),
        (jstr "related_applications", related_applications) ]

/-- The ten recognized keys of the spec's allow-list, in the order of the
object literal at src lines 115-126. -/
def allowListKeys : List Str :=
  [ jstr "name", jstr "short_name", jstr "start_url", jstr "display",
    jstr "background_color", jstr "theme_color", jstr "description",
    jstr "icons", jstr "prefer_related_applications", jstr "related_applications" ]

/-- Regex `\d`: the ASCII digits. -/
def isDigitChar (c : Char) : Bool := '0' ≤ c && c ≤ '9'

/-- Regex `\w`: ASCII letters, digits and the underscore. -/
def isWordChar (c : Char) : Bool :=
  ('a' ≤ c && c ≤ 'z') || ('A' ≤ c && c ≤ 'Z') || isDigitChar c || c == '_'

/-- Strips the literal `lit` from the front of `rest`, or fails. -/
def dropLiteral (lit rest : Str) : Option Str :=
  if rest.take lit.length = lit then some (rest.drop lit.length) else none

/-- Continues the reversed-suffix parse of the icon regex after the extension
and its dot have been stripped: consumes (right to left) the `\w*` run, the
literal `-`, the nonempty `\d+` run, and the literal `manifest/icon_`;
anything may precede, since the regex is unanchored on the left.  Returns the
`\d+` capture (group 1, in left-to-right order) paired with `ext`. -/
def matchIconAfterExt (afterDot : Str) (ext : Str) : Option (Str × Str) :=
  match afterDot.dropWhile isWordChar with
  | '-' :: afterDash =>
    let dsRev := afterDash.takeWhile isDigitChar
    if dsRev.isEmpty then none
    else
      match dropLiteral (jstr "manifest/icon_").reverse (afterDash.dropWhile isDigitChar) with
      | some _ => some (dsRev.reverse, ext)
      | none => none
  | _ => none

/-- `fileName.match(/manifest\/icon_(\d+)-\w*\.(png|jpeg|jpg)$/)` (src lines
150, 162, 185), returning the two capture groups on success.  The regex is
anchored on the right, and within a successful match neither `\d+`, `-`,
`\w*`, `.` nor the extension can contain `/`, so the decomposition — hence
the captures — is unique; parsing the string from its end is therefore
equivalent to the regex search. -/
def matchIconPattern (fileName : Str) : Option (Str × Str) :=
  let r := fileName.reverse
  match dropLiteral (jstr ".png").reverse r with
  | some rest => matchIconAfterExt rest (jstr "png")
  | none =>
    match dropLiteral (jstr ".jpeg").reverse r with
    | some rest => matchIconAfterExt rest (jstr "jpeg")
    | none =>
      match dropLiteral (jstr ".jpg").reverse r with
      | some rest => matchIconAfterExt rest (jstr "jpg")
      | none => none

/-- `defaultIsAssetManifestIcon` (src lines 149-150): true iff the file name
matches the icon pattern. -/
def defaultIsAssetManifestIcon (fileName : Str) : Bool :=
  (matchIconPattern fileName).isSome

/-- `parseInt(ds, 10)` on a nonempty all-digit string. -/
def parseIntDecimal (ds : Str) : Nat :=
  ds.foldl (fun n c => 10 * n + (c.toNat - '0'.toNat)) 0

/-- The `{ width, height }` record of the size extractors. -/
structure Dimensions where
  width : Nat
  height : Nat

/-- `defaultGetIconSize` (src lines 161-173): re-matches the pattern, parses
the `\d+` capture, and throws when the result is falsy — `parseInt` of a
nonempty digit string is never `NaN`, but it is the falsy `0` when the digit
run denotes zero, and a failed match leaves `dimension` as falsy `null`. -/
def defaultGetIconSize (fileName : Str) : Except String Dimensions :=
  match matchIconPattern fileName with
  | some (ds, _) =>
    let dimension := parseIntDecimal ds
    if dimension = 0 then Except.error "Invalid icon dimension"
    else Except.ok { width := dimension, height := dimension }
  | none => Except.error "Invalid icon dimension"

/-- `defaultGetIconType` (src lines 184-196): re-matches the pattern and
returns `image/` followed by the extension capture, which is one of the
nonempty strings `png`, `jpeg`, `jpg` whenever the match succeeds. -/
def defaultGetIconType (fileName : Str) : Except String Str :=
  match matchIconPattern fileName with
  | some (_, ext) => Except.ok (jstr "image/" ++ ext)
  | none => Except.error "Invalid icon extension"

/-- `trimSlashRight` (src lines 17-19): drops the last character when it is a
slash (`path.slice(-1)` of the empty string is `""`, which is not `'/'`). -/
def trimSlashRight (path : Str) : Str :=
  if path.getLast? = some '/' then path.dropLast else path

/-- `trimSlashLeft` (src lines 27-29): drops the first character when it is a
slash. -/
def trimSlashLeft (path : Str) : Str :=
  if path.head? = some '/' then path.tail else path

/-- `normalizePath` (src lines 37-39). -/
def normalizePath (path : Str) : Str :=
  trimSlashRight (trimSlashLeft path)

/-- The intermediate `{ fileName, sizes, type }` records (src lines 273-281). -/
structure IconAsset where
  fileName : Str
  sizes : Str
  type : Str

/-- A manifest icon entry `{ type, sizes, src }` (src lines 283-287). -/
structure Icon where
  type : Str
  sizes : Str
  src : Str

/-- The template literal `` `${size.width}x${size.height}` `` (src line 277). -/
def sizesString (size : Dimensions) : Str :=
  jstr (toString size.width) ++ ('x' :: jstr (toString size.height))

/-- `Array.prototype.map` over the already-filtered file names with the
possibly-throwing describer callbacks (src lines 275-281): `getIconSize` runs
before `getIconType` on each element, and the first throw aborts the map. -/
def mapDescribe (getIconSize : Str → Except String Dimensions)
    (getIconType : Str → Except String Str) : List Str → Except String (List IconAsset)
  | [] => Except.ok []
  | fileName :: rest =>
    match getIconSize fileName with
    | Except.error e => Except.error e
    | Except.ok size =>
      match getIconType fileName with
      | Except.error e => Except.error e
      | Except.ok type =>
        match mapDescribe getIconSize getIconType rest with
        | Except.error e => Except.error e
        | Except.ok tail =>
          Except.ok ({ fileName := fileName, sizes := sizesString size, type := type } :: tail)

/-- `iconAssets` (src lines 273-281): filter the asset names by the
classifier, then describe each survivor. -/
def synthesizeIconAssets (isAssetManifestIcon : Str → Bool)
    (getIconSize : Str → Except String Dimensions) (getIconType : Str → Except String Str)
    (fileNames : List Str) : Except String (List IconAsset) :=
  mapDescribe getIconSize getIconType (fileNames.filter isAssetManifestIcon)

/-- `icons` (src lines 283-287): each described asset becomes
`{ type, sizes, src: trimSlashRight(publicPath) + '/' + fileName }`. -/
def synthesizeIcons (isAssetManifestIcon : Str → Bool)
    (getIconSize : Str → Except String Dimensions) (getIconType : Str → Except String Str)
    (publicPath : Str) (fileNames : List Str) : Except String (List Icon) :=
  match synthesizeIconAssets isAssetManifestIcon getIconSize getIconType fileNames with
  | Except.error e => Except.error e
  | Except.ok iconAssets =>
    Except.ok (iconAssets.map (fun a =>
      { type := a.type, sizes := a.sizes,
        src := trimSlashRight publicPath ++ ('/' :: a.fileName) }))

/-- An icon entry as a JavaScript object, field order as written in the
source literal (src lines 283-287). -/
def iconToJS (i : Icon) : JSValue :=
  JSValue.obj
    [ (jstr "type", JSValue.str i.type),
      (jstr "sizes", JSValue.str i.sizes),
      (jstr "src", JSValue.str i.src) ]

/-- The object literal update `{ ...o, k: v }`: spreading keeps the insertion
order of `o`; when `k` is already a key its value is replaced at its original
position, otherwise the new pair is appended at the end. -/
def jsSpreadSet (o : JSObj) (k : Str) (v : JSValue) : JSObj :=
  if o.any (fun p => p.1 == k) then
    o.map (fun p => if p.1 == k then (p.1, v) else p)
  else o ++ [(k, v)]

/-- `{ ...this.content, icons }` (src line 289), with the icon array embedded
as a JavaScript value. -/
def mergedManifest (validatedContent : JSObj) (icons : List Icon) : JSObj :=
  jsSpreadSet validatedContent (jstr "icons") (JSValue.arr (icons.map iconToJS))

/-- The keys of an object as `JSON.stringify` serializes it: members whose
value is `undefined` are skipped, the rest keep their insertion order. -/
def serializedKeys (o : JSObj) : List Str :=
  (o.filter (fun p =>
    match p.2 with
    | JSValue.undefined => false
    | _ => true)).map Prod.fst

/-- The emitted file name (src lines 291-294):
`` `${normalizePath(this.destination)}/manifest-${md5(content).substring(0, 8)}.json` ``.
The `md5` function is the external npm package, passed in as a parameter;
`substring(0, 8)` is `List.take 8`. -/
def manifestFilename (md5 : Str → Str) (destination serializedContent : Str) : Str :=
  normalizePath destination ++ jstr "/manifest-" ++ (md5 serializedContent).take 8 ++ jstr ".json"

/-- The plugin instance state set up by the constructor (src lines 216-246). -/
structure WebAppManifestPlugin where
  name : Str
  content : JSObj
  destination : Str
  isAssetManifestIcon : Str → Bool
  getIconSize : Str → Except String Dimensions
  getIconType : Str → Except String Str

/-- The constructor (src lines 230-246): validates `content` eagerly — a
validation throw propagates out of `new WebAppManifestPlugin(...)` — and
stores the configuration. -/
def WebAppManifestPlugin.construct (content : JSObj) (destination : Str)
    (isAssetManifestIcon : Str → Bool) (getIconSize : Str → Except String Dimensions)
    (getIconType : Str → Except String Str) : Except String WebAppManifestPlugin :=
  match validateManifestContent content with
  | Except.error e => Except.error e
  | Except.ok validated =>
    Except.ok
      { name := jstr "webpack-web-app-manifest",
        content := validated,
        destination := destination,
        isAssetManifestIcon := isAssetManifestIcon,
        getIconSize := getIconSize,
        getIconType := getIconType }

/-- A lowercase hexadecimal digit, the alphabet of the digest strings the
`md5` npm package produces. -/
def isLowerHexChar (c : Char) : Bool :=
  isDigitChar c || ('a' ≤ c && c ≤ 'f')

/-- The file-name list of the spec's C1 scenario, as the spec writes it. -/
def c1SpecFiles : List Str :=
  [jstr "icon_192-abcd1234.png", jstr "icon_512-abcd1234.png", jstr "logo.png"]

/-- The C1 scenario file names with the `manifest/` folder the default
classifier's pattern requires. -/
def c1Files : List Str :=
  [jstr "manifest/icon_192-abcd1234.png", jstr "manifest/icon_512-abcd1234.png", jstr "logo.png"]

/-- The icon entries the plugin synthesizes from `c1Files` with
`publicPath = "/"`. -/
def c1Icons : List Icon :=
  [ { type := jstr "image/png", sizes := jstr "192x192",
      src := jstr "/manifest/icon_192-abcd1234.png" },
    { type := jstr "image/png", sizes := jstr "512x512",
      src := jstr "/manifest/icon_512-abcd1234.png" } ]

/-- What `validateManifestContent` returns on the empty content object: all
ten recognized keys, each bound to `undefined`. -/
def c2ValidatedEmpty : JSObj :=
  [ (jstr "name", JSValue.undefined), (jstr "short_name", JSValue.undefined),
    (jstr "start_url", JSValue.undefined), (jstr "display", JSValue.undefined),
    (jstr "background_color", JSValue.undefined), (jstr "theme_color", JSValue.undefined),
    (jstr "description", JSValue.undefined), (jstr "icons", JSValue.undefined),
    (jstr "prefer_related_applications", JSValue.undefined),
    (jstr "related_applications", JSValue.undefined) ]

/-- A conforming image-resource content value: `icons` is an array of objects
each carrying a string `src`. -/
def c3IconsContent : JSObj :=
  [ (jstr "icons", JSValue.arr [JSValue.obj [(jstr "src", JSValue.str (jstr "icon.png"))]]) ]

/-- A conforming external-application content value: `related_applications`
is an array of objects each carrying a string `platform`. -/
def c3RelatedContent : JSObj :=
  [ (jstr "related_applications",
      JSValue.arr [JSValue.obj [(jstr "platform", JSValue.str (jstr "play"))]]) ]

/-- An asset list exercising filtering and ordering for the C5 witness. -/
def c5Files : List Str :=
  [jstr "manifest/icon_48-h.png", jstr "logo.png", jstr "manifest/icon_96-h.jpg"]

/-- The icons synthesized from `c5Files` with the default components and an
empty public path. -/
def c5Icons : List Icon :=
  [ { type := jstr "image/png", sizes := jstr "48x48", src := jstr "/manifest/icon_48-h.png" },
    { type := jstr "image/jpg", sizes := jstr "96x96", src := jstr "/manifest/icon_96-h.jpg" } ]

/-- The single-icon asset list of the spec's public-path scenario. -/
def c6Files : List Str := [jstr "manifest/icon_192-h.png"]

/-- The icon synthesized from `c6Files` with `publicPath = "/assets/"`. -/
def c6Icons : List Icon :=
  [ { type := jstr "image/png", sizes := jstr "192x192",
      src := jstr "/assets/manifest/icon_192-h.png" } ]

/-- A stand-in for the external `md5` function with the package's output
shape: a 32-character lowercase-hex digest. -/
def md5Stub : Str → Str := fun _ => jstr "00112233445566778899aabbccddeeff"

/-- Content whose only defined recognized key sits, in the validator's
literal, after the `icons` slot. -/
def c8Content : JSObj := [(jstr "prefer_related_applications", JSValue.boolean true)]

/-- What `validateManifestContent` returns on `c8Content`. -/
def c8Validated : JSObj :=
  [ (jstr "name", JSValue.undefined), (jstr "short_name", JSValue.undefined),
    (jstr "start_url", JSValue.undefined), (jstr "display", JSValue.undefined),
    (jstr "background_color", JSValue.undefined), (jstr "theme_color", JSValue.undefined),
    (jstr "description", JSValue.undefined), (jstr "icons", JSValue.undefined),
    (jstr "prefer_related_applications", JSValue.boolean true),
    (jstr "related_applications", JSValue.undefined) ]

/-- The asset list for the C8 evaluation. -/
def c8Files : List Str := [jstr "manifest/icon_192-a.png"]

/-- The icons synthesized from `c8Files` with `publicPath = "/"`. -/
def c8Icons : List Icon :=
  [ { type := jstr "image/png", sizes := jstr "192x192",
      src := jstr "/manifest/icon_192-a.png" } ]

/-- Content mixing one recognized and one unrecognized key, for the C9
witness. -/
def c9Content : JSObj :=
  [ (jstr "name", JSValue.str (jstr "Tumblr")),
    (jstr "invalid_key", JSValue.str (jstr "x")) ]

/-- What `validateManifestContent` returns on `c9Content`. -/
def c9Validated : JSObj :=
  [ (jstr "name", JSValue.str (jstr "Tumblr")), (jstr "short_name", JSValue.undefined),
    (jstr "start_url", JSValue.undefined), (jstr "display", JSValue.undefined),
    (jstr "background_color", JSValue.undefined), (jstr "theme_color", JSValue.undefined),
    (jstr "description", JSValue.undefined), (jstr "icons", JSValue.undefined),
    (jstr "prefer_related_applications", JSValue.undefined),
    (jstr "related_applications", JSValue.undefined) ]

/-- Content whose `display` is a string outside the enumerated display
modes, for the C10 witness. -/
def c10Content : JSObj := [(jstr "display", JSValue.str (jstr "bad"))]

/-- Inversion of a successful validation: every assertion of the source ran
without throwing — in particular the display-mode check — and the returned
object is the ten-key literal, so its key list is exactly `allowListKeys`. -/
theorem validate_ok_inversion (mc v : JSObj)
    (h : validateManifestContent mc = Except.ok v) :
    assertNullableDisplayMode (jsGet mc (jstr "display")) = Except.ok () ∧
    v.map Prod.fst = allowListKeys := by
  simp only [validateManifestContent] at h
  repeat' split at h
  all_goals simp_all
  subst h
  rfl

/-- A passing display-mode assertion means the value was `undefined` or one
of the four enumerated display-mode strings. -/
theorem assertNullableDisplayMode_ok {x : JSValue}
    (h : assertNullableDisplayMode x = Except.ok ()) :
    x = JSValue.undefined ∨ ∃ s, x = JSValue.str s ∧ DISPLAY_MODES.contains s = true := by
  cases x <;> simp only [assertNullableDisplayMode, jsAssert] at h
  case undefined => exact Or.inl rfl
  case str s =>
    split at h
    · next hc => exact Or.inr ⟨s, rfl, hc⟩
    · exact absurd h (by simp)
  all_goals exact absurd h (by simp)

/-- A successful describer map touches exactly the given file names, in
order. -/
theorem mapDescribe_ok_fileNames (gs : Str → Except String Dimensions)
    (gt : Str → Except String Str) :
    ∀ (l : List Str) (iconAssets : List IconAsset),
      mapDescribe gs gt l = Except.ok iconAssets →
      iconAssets.map IconAsset.fileName = l := by
  intro l
  induction l with
  | nil =>
    intro iconAssets h
    simp only [mapDescribe] at h
    injection h with h2
    subst h2
    rfl
  | cons f rest ih =>
    intro iconAssets h
    simp only [mapDescribe] at h
    repeat' split at h
    all_goals simp_all
    rw [← h]
    simp [ih]

/-- When synthesis succeeds, the icon `src` fields are, in order, the
public-path-prefixed accepted file names. -/
theorem synthesizeIcons_ok_src (isIcon : Str → Bool) (gs : Str → Except String Dimensions)
    (gt : Str → Except String Str) (pp : Str) (files : List Str) (L : List Icon)
    (h : synthesizeIcons isIcon gs gt pp files = Except.ok L) :
    L.map Icon.src = (files.filter isIcon).map (fun f => trimSlashRight pp ++ ('/' :: f)) := by
  simp only [synthesizeIcons] at h
  split at h
  · exact absurd h (by simp)
  · rename_i iconAssets heq
    injection h with h2
    subst h2
    have hfn := mapDescribe_ok_fileNames gs gt (files.filter isIcon) iconAssets heq
    rw [List.map_map]
    rw [← hfn, List.map_map]
    rfl

/-- Claim C1 (counterexample): on the spec's literal file-name list — whose
names lack the `manifest/` folder segment the default classifier's regex
requires — the synthesized icons array is empty, not of length 2. -/
theorem c1_spec_scenario_counterexample :
    synthesizeIcons defaultIsAssetManifestIcon defaultGetIconSize defaultGetIconType (jstr "/")
      c1SpecFiles = Except.ok [] ∧ ([] : List Icon).length ≠ 2 :=
  ⟨rfl, by decide⟩

/-- Claim C1 (amended): with the scenario's file names placed under the
`manifest/` folder, the default classifier, `publicPath = "/"` and empty
content, the synthesized icons array has exactly 2 entries with sizes
`192x192` and `512x512`, both of type `image/png`, and no entry for
`logo.png`. -/
theorem c1_default_scenario :
    synthesizeIcons defaultIsAssetManifestIcon defaultGetIconSize defaultGetIconType (jstr "/")
      c1Files = Except.ok c1Icons ∧
    c1Icons.length = 2 ∧
    c1Icons.map Icon.sizes = [jstr "192x192", jstr "512x512"] ∧
    c1Icons.map Icon.type = [jstr "image/png", jstr "image/png"] ∧
    (∀ i ∈ c1Icons, i.src ≠ trimSlashRight (jstr "/") ++ ('/' :: jstr "logo.png")) :=
  ⟨rfl, rfl, rfl, rfl, by decide⟩

/-- Claim C2: the claim says recognized keys whose value is undefined or
absent are absent from the validator's output; in the code the cleanup loop
iterates over the enumerable properties of the *function*
`validateManifestContent` instead of the `validatedManifest` object, so on
the empty content object validation succeeds with all ten recognized keys
still present, each bound to `undefined`. -/
theorem c2_undefined_keys_not_dropped :
    validateManifestContent [] = Except.ok c2ValidatedEmpty ∧
    c2ValidatedEmpty.map Prod.fst = allowListKeys ∧
    jsGet c2ValidatedEmpty (jstr "name") = JSValue.undefined :=
  ⟨rfl, rfl, rfl⟩

/-- Claim C3: the claim says validation never fails when every recognized
key conforms; in the code `assert(Array.isArray(a) && a.forEach(...))`
evaluates to the falsy `undefined` whenever the value is an array — even
after every element passed its per-element assertion — so a conforming
`icons` or `related_applications` array always throws (the latter is also
rejected earlier by the stray `assertNullableString(related_applications)`).
The first conjunct shows every element of the `icons` array conforms. -/
theorem c3_conforming_arrays_fail_validation :
    forEachAssert assertImageResource
      [JSValue.obj [(jstr "src", JSValue.str (jstr "icon.png"))]] = Except.ok () ∧
    validateManifestContent c3IconsContent = Except.error "AssertionError" ∧
    validateManifestContent c3RelatedContent = Except.error "AssertionError" :=
  ⟨rfl, rfl, rfl⟩

/-- Claim C4 (counterexample): `manifest/icon_0-a.png` is accepted by the
default classifier, yet the default size extractor throws on it, because
`parseInt` returns the falsy `0`. -/
theorem c4_zero_size_counterexample :
    defaultIsAssetManifestIcon (jstr "manifest/icon_0-a.png") = true ∧
    defaultGetIconSize (jstr "manifest/icon_0-a.png")
      = Except.error "Invalid icon dimension" :=
  ⟨rfl, rfl⟩

/-- Claim C4 (amended): for every file name the default classifier accepts
(equivalently, on which the icon pattern matches with captures `ds`, `ext`),
the default type extractor succeeds, and the default size extractor succeeds
exactly when the digit capture parses to a nonzero value — the failure path
is reachable only for a zero digit run. -/
theorem c4_default_extractors_on_accepted (f ds ext : Str)
    (h : matchIconPattern f = some (ds, ext)) :
    defaultIsAssetManifestIcon f = true ∧
    defaultGetIconType f = Except.ok (jstr "image/" ++ ext) ∧
    (parseIntDecimal ds ≠ 0 →
      defaultGetIconSize f
        = Except.ok { width := parseIntDecimal ds, height := parseIntDecimal ds }) ∧
    (parseIntDecimal ds = 0 →
      defaultGetIconSize f = Except.error "Invalid icon dimension") := by
  refine ⟨?_, ?_, ?_, ?_⟩
  · simp [defaultIsAssetManifestIcon, h]
  · simp [defaultGetIconType, h]
  · intro hz
    simp [defaultGetIconSize, h, hz]
  · intro hz
    simp [defaultGetIconSize, h, hz]

/-- Witness for C4 (amended) at `manifest/icon_192-a.png`. -/
theorem c4_witness :
    defaultGetIconSize (jstr "manifest/icon_192-a.png")
      = Except.ok { width := 192, height := 192 } ∧
    defaultGetIconType (jstr "manifest/icon_192-a.png")
      = Except.ok (jstr "image/" ++ jstr "png") := by
  have h := c4_default_extractors_on_accepted (jstr "manifest/icon_192-a.png")
    (jstr "192") (jstr "png") rfl
  exact ⟨h.2.2.1 (by decide), h.2.1⟩

/-- Claim C5: whenever synthesis succeeds, the icons array has exactly one
entry per file name the classifier accepts, and the entries follow the
relative order of the accepted names in the input list (witnessed through
their `src` fields, which embed the file names). -/
theorem c5_icon_count_and_order (isIcon : Str → Bool) (getSize : Str → Except String Dimensions)
    (getType : Str → Except String Str) (publicPath : Str) (files : List Str) (L : List Icon)
    (h : synthesizeIcons isIcon getSize getType publicPath files = Except.ok L) :
    L.length = (files.filter isIcon).length ∧
    L.map Icon.src
      = (files.filter isIcon).map (fun f => trimSlashRight publicPath ++ ('/' :: f)) := by
  have hsrc := synthesizeIcons_ok_src isIcon getSize getType publicPath files L h
  refine ⟨?_, hsrc⟩
  have hlen := congrArg List.length hsrc
  simpa using hlen

/-- Witness for C5 on `c5Files` with the default components. -/
theorem c5_witness :
    c5Icons.length = (c5Files.filter defaultIsAssetManifestIcon).length ∧
    c5Icons.map Icon.src
      = (c5Files.filter defaultIsAssetManifestIcon).map
          (fun f => trimSlashRight (jstr "") ++ ('/' :: f)) :=
  c5_icon_count_and_order defaultIsAssetManifestIcon defaultGetIconSize defaultGetIconType
    (jstr "") c5Files c5Icons rfl

/-- Claim C6: whenever synthesis succeeds, every icon's `src` equals the
public path with its trailing slash stripped, then `/`, then the
corresponding accepted file name. -/
theorem c6_icon_src_format (isIcon : Str → Bool) (getSize : Str → Except String Dimensions)
    (getType : Str → Except String Str) (publicPath : Str) (files : List Str) (L : List Icon)
    (h : synthesizeIcons isIcon getSize getType publicPath files = Except.ok L)
    (i : Nat) (hi : i < L.length) (hi2 : i < (files.filter isIcon).length) :
    (L.get ⟨i, hi⟩).src
      = trimSlashRight publicPath ++ ('/' :: (files.filter isIcon).get ⟨i, hi2⟩) := by
  have hsrc := synthesizeIcons_ok_src isIcon getSize getType publicPath files L h
  have h1 := congrArg (fun l => l[i]?) hsrc
  simp only [List.getElem?_map] at h1
  rw [List.getElem?_eq_getElem hi, List.getElem?_eq_getElem hi2] at h1
  simpa using h1

/-- Witness for C6: the spec's scenario `publicPath = "/assets/"` with icon
file `manifest/icon_192-h.png` produces `src = "/assets/manifest/icon_192-h.png"`,
with no double slash. -/
theorem c6_witness :
    (c6Icons.get ⟨0, by decide⟩).src = jstr "/assets/manifest/icon_192-h.png" := by
  have h := c6_icon_src_format defaultIsAssetManifestIcon defaultGetIconSize defaultGetIconType
    (jstr "/assets/") c6Files c6Icons rfl 0 (by decide) (by decide)
  exact h.trans rfl

/-- Stripping the leading slash of a string that starts with one. -/
theorem trimSlashLeft_cons (s : Str) : trimSlashLeft ('/' :: s) = s := by
  simp [trimSlashLeft]

/-- A string that does not start with a slash is unchanged. -/
theorem trimSlashLeft_of_ne (s : Str) (h : s.head? ≠ some '/') : trimSlashLeft s = s := by
  simp [trimSlashLeft, h]

/-- Stripping the trailing slash of a string that ends with one. -/
theorem trimSlashRight_concat (s : Str) : trimSlashRight (s ++ ['/']) = s := by
  simp [trimSlashRight, List.getLast?_concat, List.dropLast_concat]

/-- A string that does not end with a slash is unchanged. -/
theorem trimSlashRight_of_ne (s : Str) (h : s.getLast? ≠ some '/') : trimSlashRight s = s := by
  simp [trimSlashRight, h]

/-- Destination normalization strips exactly one leading and one trailing
slash when present and touches nothing else. -/
theorem normalizePath_strips_one (d : Str) (h1 : d.head? ≠ some '/')
    (h2 : d.getLast? ≠ some '/') :
    normalizePath ('/' :: (d ++ ['/'])) = d ∧ normalizePath ('/' :: d) = d ∧
    normalizePath (d ++ ['/']) = d ∧ normalizePath d = d := by
  refine ⟨?_, ?_, ?_, ?_⟩
  · rw [normalizePath, trimSlashLeft_cons, trimSlashRight_concat]
  · rw [normalizePath, trimSlashLeft_cons, trimSlashRight_of_ne d h2]
  · cases d with
    | nil => rfl
    | cons c cs =>
      have hc : c ≠ '/' := by
        intro hc
        exact h1 (by simp [hc])
      have hleft : trimSlashLeft ((c :: cs) ++ ['/']) = (c :: cs) ++ ['/'] :=
        trimSlashLeft_of_ne ((c :: cs) ++ ['/']) (by simp [hc])
      rw [normalizePath, hleft, trimSlashRight_concat]
  · rw [normalizePath, trimSlashLeft_of_ne d h1, trimSlashRight_of_ne d h2]

/-- Claim C7: the destination is normalized by stripping exactly one leading
and one trailing slash (so `/manifest/`, `manifest` and `/manifest` all
normalize to `manifest`, interior characters untouched), and — given that
the external digest function produces 32 lowercase-hex characters, as the
`md5` package does — the emitted file name is exactly
`<normalized-destination>/manifest-<hash>.json` with an 8-character
lowercase-hex hash taken from the digest of the serialized manifest. -/
theorem c7_filename_and_normalization (md5 : Str → Str) (destination serializedContent : Str)
    (hlen : (md5 serializedContent).length = 32)
    (hhex : ∀ c ∈ md5 serializedContent, isLowerHexChar c = true) :
    manifestFilename md5 destination serializedContent
        = normalizePath destination ++ jstr "/manifest-"
            ++ (md5 serializedContent).take 8 ++ jstr ".json" ∧
    ((md5 serializedContent).take 8).length = 8 ∧
    (∀ c ∈ (md5 serializedContent).take 8, isLowerHexChar c = true) ∧
    normalizePath (jstr "/manifest/") = jstr "manifest" ∧
    normalizePath (jstr "manifest") = jstr "manifest" ∧
    normalizePath (jstr "/manifest") = jstr "manifest" ∧
    (∀ d : Str, d.head? ≠ some '/' → d.getLast? ≠ some '/' →
      normalizePath ('/' :: (d ++ ['/'])) = d ∧ normalizePath ('/' :: d) = d ∧
      normalizePath (d ++ ['/']) = d ∧ normalizePath d = d) := by
  refine ⟨rfl, ?_, ?_, by decide, by decide, by decide, normalizePath_strips_one⟩
  · simp [List.length_take, hlen]
  · exact fun c hc => hhex c (List.take_subset _ _ hc)

/-- Witness for C7 with a concrete 32-hex-character digest function. -/
theorem c7_witness :
    manifestFilename md5Stub (jstr "/manifest/") (jstr "content")
        = normalizePath (jstr "/manifest/") ++ jstr "/manifest-"
            ++ (md5Stub (jstr "content")).take 8 ++ jstr ".json" ∧
    ((md5Stub (jstr "content")).take 8).length = 8 := by
  have h := c7_filename_and_normalization md5Stub (jstr "/manifest/") (jstr "content")
    (by decide) (by decide)
  exact ⟨h.1, h.2.1⟩

/-- Claim C8: the claim says `icons` comes after all validated-content keys
in the serialized object; in the code the validated content always retains
an `icons` key (bound to `undefined`, since the cleanup loop is a no-op and
arrays cannot pass validation), so the spread `{ ...this.content, icons }`
overwrites that slot in place: with `prefer_related_applications` defined,
the serialized key order is `icons` first, `prefer_related_applications`
last.  The derived icon array does overwrite the validated value. -/
theorem c8_icons_position :
    validateManifestContent c8Content = Except.ok c8Validated ∧
    synthesizeIcons defaultIsAssetManifestIcon defaultGetIconSize defaultGetIconType (jstr "/")
      c8Files = Except.ok c8Icons ∧
    jsGet (mergedManifest c8Validated c8Icons) (jstr "icons")
      = JSValue.arr (c8Icons.map iconToJS) ∧
    serializedKeys (mergedManifest c8Validated c8Icons)
      = [jstr "icons", jstr "prefer_related_applications"] ∧
    (serializedKeys (mergedManifest c8Validated c8Icons)).getLast? ≠ some (jstr "icons") := by
  refine ⟨rfl, rfl, rfl, rfl, ?_⟩
  decide

/-- Claim C9: whenever validation succeeds, every key of the result lies in
the fixed ten-key allow-list, and any key outside the allow-list is absent
from the result. -/
theorem c9_validated_keyset_allowlist (mc v : JSObj)
    (h : validateManifestContent mc = Except.ok v) :
    (∀ k, k ∈ v.map Prod.fst → k ∈ allowListKeys) ∧
    (∀ k, k ∉ allowListKeys → k ∉ v.map Prod.fst) := by
  have hkeys := (validate_ok_inversion mc v h).2
  rw [hkeys]
  exact ⟨fun k hk => hk, fun k hk hmem => hk hmem⟩

/-- Witness for C9: on content with an unrecognized `invalid_key`, the
validated result does not contain it. -/
theorem c9_witness : jstr "invalid_key" ∉ c9Validated.map Prod.fst :=
  (c9_validated_keyset_allowlist c9Content c9Validated rfl).2 (jstr "invalid_key") (by decide)

/-- Claim C10: for every content whose `display` is defined and is not one
of the four display-mode strings, constructing the plugin throws (an
assertion error) — validation happens eagerly at construction time, so no
plugin instance exists for such a configuration. -/
theorem c10_eager_display_check (content : JSObj) (destination : Str)
    (isAssetManifestIcon : Str → Bool) (getIconSize : Str → Except String Dimensions)
    (getIconType : Str → Except String Str)
    (hdef : jsGet content (jstr "display") ≠ JSValue.undefined)
    (hnot : ∀ s, jsGet content (jstr "display") = JSValue.str s →
      DISPLAY_MODES.contains s = false) :
    ∃ e, WebAppManifestPlugin.construct content destination isAssetManifestIcon getIconSize
      getIconType = Except.error e := by
  cases hval : validateManifestContent content with
  | error e =>
    refine ⟨e, ?_⟩
    simp [WebAppManifestPlugin.construct, hval]
  | ok v =>
    exfalso
    have hd := (validate_ok_inversion content v hval).1
    rcases assertNullableDisplayMode_ok hd with h1 | ⟨s, hs, hc⟩
    · exact hdef h1
    · rw [hnot s hs] at hc
      exact Bool.false_ne_true hc

/-- Witness for C10: `display: "bad"` makes construction throw. -/
theorem c10_witness :
    ∃ e, WebAppManifestPlugin.construct c10Content (jstr "manifest")
      defaultIsAssetManifestIcon defaultGetIconSize defaultGetIconType = Except.error e := by
  refine c10_eager_display_check c10Content (jstr "manifest")
    defaultIsAssetManifestIcon defaultGetIconSize defaultGetIconType ?_ ?_
  · intro h
    rw [show jsGet c10Content (jstr "display") = JSValue.str (jstr "bad") from rfl] at h
    exact JSValue.noConfusion h
  · intro s hs
    rw [show jsGet c10Content (jstr "display") = JSValue.str (jstr "bad") from rfl] at hs
    injection hs with h2
    subst h2
    decide

end WebAppManifest
